import Mathlib

/-!
Shallow embedding of the alert lifecycle engine of the
MoveInSync-Case-Study repository:

* `services/RuleEngine.js` — `OverspeedRuleEngine`, `FeedbackRuleEngine`,
  `ComplianceRuleEngine` and the dispatching `registry`;
* `jobs/autoCloseWorker.js` — `runAutoClose` (the auto-close sweep and the
  guarded conditional write `Alert.findOneAndUpdate`);
* `controllers/alertController.js` — `createAlert` (ingestion) and
  `resolveAlert` (manual resolution), with their cache invalidations.

The Mongo store is modelled as a `List Alert`; `alertid` is the document
identity (it carries a unique index in `models/Alert.js`, and the `_id`
used by the worker and the resolve path identifies the same document).
Timestamps are epoch milliseconds as `Int` (`Date.getTime()`).  Metadata
is an association list of string keys to JS scalar values.  Each HTTP or
background operation is a pure function returning the new store together
with the list of externally visible effects (document saves and cache
invalidations), so the theorems can talk about which writes and which
invalidations an operation performs.
-/

namespace AlertEngine

/-- The `status` enum of `models/Alert.js`
(`['OPEN', 'ESCALATED', 'AUTO-CLOSED', 'RESOLVED']`; the hyphen of
`AUTO-CLOSED` becomes an underscore). -/
inductive Status where
  | OPEN
  | ESCALATED
  | AUTO_CLOSED
  | RESOLVED
  deriving DecidableEq, Repr

/-- A JS scalar stored in the `metadata` mixed bag.  The engine compares
metadata values with strict equality (`=== true`), so the type of the
value matters. -/
inductive JsVal where
  | bool (b : Bool)
  | num (n : Int)
  | str (s : String)
  deriving DecidableEq, Repr

/-- One alert document (`models/Alert.js`). -/
structure Alert where
  alertid : String
  sourceType : String
  severity : String
  timestamp : Int
  status : Status
  metadata : List (String × JsVal)
  deriving DecidableEq, Repr

/-- One entry of `rules.json`.  All four fields are optional per category
(`window_mins`/`escalate_if_count` for the escalation engines,
`auto_close_mins`/`auto_close_if` for the sweeper). -/
structure Rule where
  window_mins : Option Int
  escalate_if_count : Option Int
  auto_close_mins : Option Int
  auto_close_if : Option String
  deriving DecidableEq, Repr

/-- The parsed `rules.json` catalog: category name to rule. -/
abbrev Rules := List (String × Rule)

/-- `rules[category]` — `undefined` when the key is absent. -/
def rulesFind (rs : Rules) (k : String) : Option Rule :=
  (rs.find? (fun p => p.1 = k)).map (fun p => p.2)

/-- `metadata?.[key]` — lookup in the metadata bag. -/
def metaGet (m : List (String × JsVal)) (k : String) : Option JsVal :=
  (m.find? (fun p => p.1 = k)).map (fun p => p.2)

/-- `metadata.key = v` — replace the key if present, else append it. -/
def metaSet (m : List (String × JsVal)) (k : String) (v : JsVal) : List (String × JsVal) :=
  if m.any (fun p => p.1 = k) then m.map (fun p => if p.1 = k then (k, v) else p)
  else m ++ [(k, v)]

/-- JS truthiness of an optional numeric field: `undefined` and `0` are
falsy (`if (rule.auto_close_mins)`). -/
def intTruthy : Option Int → Bool
  | none => false
  | some v => v ≠ 0

/-- JS truthiness of an optional string field: `undefined` and `""` are
falsy (`else if (rule.auto_close_if)`). -/
def strTruthy : Option String → Bool
  | none => false
  | some s => s ≠ ""

/-- Observable side effects of one operation: a document save (the saved
document) or a cache invalidation (`invalidate([...])` with its keys). -/
inductive Effect where
  | saved (a : Alert)
  | invalidated (keys : List String)
  deriving DecidableEq, Repr

/-- Cache key constant `CACHE_SUMMARY` of `alertController.js`. -/
def CACHE_SUMMARY : String := "summary"

/-- Cache key constant `CACHE_TRENDS` of `alertController.js`. -/
def CACHE_TRENDS : String := "trends"

/-! ## Rule engines (`services/RuleEngine.js`) -/

/-- `Alert.countDocuments({ sourceType: cat, timestamp: { $gte: lo, $lte: hi } })`:
the number of persisted alerts of the category whose timestamp lies in the
closed interval `[lo, hi]`. -/
def windowCount (store : List Alert) (cat : String) (lo hi : Int) : Nat :=
  (store.filter (fun a =>
    decide (a.sourceType = cat) && decide (lo ≤ a.timestamp) && decide (a.timestamp ≤ hi))).length

/-- `OverspeedRuleEngine.evaluate` / `FeedbackRuleEngine.evaluate`, which
differ only in the category string `cat`.  Returns the (possibly mutated)
alert and whether `alert.save()` ran.  When the rule exists but lacks
`window_mins` or `escalate_if_count` the JS arithmetic yields `NaN`, the
store query rejects and the thrown error is swallowed by the caller; the
observable outcome at this level is no mutation and no save, which is the
value returned here. -/
def engineEvaluate (cat : String) (rules : Rules) (store : List Alert) (alert : Alert) :
    Alert × Bool :=
  if alert.sourceType ≠ cat then (alert, false)
  else if alert.status = Status.ESCALATED then (alert, false)
  else
    match rulesFind rules cat with
    | none => (alert, false)
    | some rule =>
      match rule.window_mins, rule.escalate_if_count with
      | some w, some cth =>
        let windowStart := alert.timestamp - w * 60 * 1000
        if (windowCount store cat windowStart alert.timestamp : Int) ≥ cth then
          ({ alert with status := Status.ESCALATED }, true)
        else (alert, false)
      | some _, none => (alert, false)
      | none, _ => (alert, false)

/-- `ComplianceRuleEngine.evaluate`: guarded only against `AUTO-CLOSED`
and `RESOLVED`, closes when the metadata key named by `auto_close_if` is
strictly `true`. -/
def complianceEvaluate (rules : Rules) (alert : Alert) : Alert × Bool :=
  if alert.sourceType ≠ "compliance" then (alert, false)
  else if alert.status = Status.AUTO_CLOSED ∨ alert.status = Status.RESOLVED then (alert, false)
  else
    match rulesFind rules "compliance" with
    | none => (alert, false)
    | some rule =>
      if strTruthy rule.auto_close_if then
        match rule.auto_close_if with
        | some k =>
          if metaGet alert.metadata k = some (JsVal.bool true) then
            ({ alert with status := Status.AUTO_CLOSED }, true)
          else (alert, false)
        | none => (alert, false)
      else (alert, false)

/-- `registry.evaluate`: dispatch on `sourceType`; unknown source types
(including names that are not engines) are a no-op. -/
def registryEvaluate (rules : Rules) (store : List Alert) (alert : Alert) : Alert × Bool :=
  if alert.sourceType = "overspeed" then engineEvaluate "overspeed" rules store alert
  else if alert.sourceType = "feedback_negative" then
    engineEvaluate "feedback_negative" rules store alert
  else if alert.sourceType = "compliance" then complianceEvaluate rules alert
  else (alert, false)

/-! ## Auto-close worker (`jobs/autoCloseWorker.js`) -/

/-- A status the sweeper considers live (`status: { $in: ['OPEN', 'ESCALATED'] }`). -/
def isLive (s : Status) : Prop := s = Status.OPEN ∨ s = Status.ESCALATED

instance (s : Status) : Decidable (isLive s) := by
  unfold isLive; infer_instance

/-- The closure note of the age-based rule. -/
def ageNote (m : Int) : String :=
  "auto-closed after " ++ toString m ++ " mins with no resolution"

/-- The closure note of the metadata-based rule. -/
def metaNote (k : String) : String :=
  "auto-closed because " ++ k ++ " is true"

/-- The metadata branch of the sweep's per-candidate decision:
`else if (rule.auto_close_if) { ... === true ... }`. -/
def metaCloseNote (rule : Rule) (c : Alert) : Option String :=
  if strTruthy rule.auto_close_if then
    match rule.auto_close_if with
    | some k =>
      if metaGet c.metadata k = some (JsVal.bool true) then some (metaNote k) else none
    | none => none
  else none

/-- The sweep's per-candidate decision (`shouldClose`/`closureNote`): the
age branch is entered whenever `auto_close_mins` is truthy, and only a
falsy `auto_close_mins` falls through to the metadata branch. -/
def closeNote (rule : Rule) (now : Int) (c : Alert) : Option String :=
  if intTruthy rule.auto_close_mins then
    match rule.auto_close_mins with
    | some m => if now - c.timestamp ≥ m * 60 * 1000 then some (ageNote m) else none
    | none => none
  else metaCloseNote rule c

/-- The document produced by the sweeper's `$set` clause. -/
def applyClose (a : Alert) (closedAt : Int) (note : String) : Alert :=
  { a with
    status := Status.AUTO_CLOSED,
    metadata := metaSet (metaSet a.metadata "closedAt" (JsVal.num closedAt)) "closureNote" (JsVal.str note) }

/-- `Alert.findOneAndUpdate({ _id: id, status: { $in: ['OPEN','ESCALATED'] } }, { $set: ... })`:
update the first document matching both the identity and the live-status
filter; return the new store and the updated document (`null` — `none` —
when nothing matched). -/
def condClose : List Alert → String → Int → String → List Alert × Option Alert
  | [], _, _, _ => ([], none)
  | a :: rest, id, closedAt, note =>
    if a.alertid = id ∧ isLive a.status then
      (applyClose a closedAt note :: rest, some (applyClose a closedAt note))
    else
      let r := condClose rest id closedAt note
      (a :: r.1, r.2)

/-- Result of one sweep tick: the store after the tick, the effects it
performed, and whether it aborted on a thrown store error. -/
structure SweepResult where
  store : List Alert
  effects : List Effect
  failed : Bool
  deriving DecidableEq, Repr

/-- The candidate loop of `runAutoClose`.  `failIds` injects store faults:
the conditional update on a candidate whose id is listed throws, which —
as in the JS `for … await` loop, which has no per-candidate handler —
aborts the remaining candidates of the tick. -/
def sweepLoop (rules : Rules) (now : Int) (failIds : List String) :
    List Alert → List Alert → SweepResult
  | [], store => ⟨store, [], false⟩
  | c :: cs, store =>
    match rulesFind rules c.sourceType with
    | none => sweepLoop rules now failIds cs store
    | some rule =>
      match closeNote rule now c with
      | none => sweepLoop rules now failIds cs store
      | some note =>
        if c.alertid ∈ failIds then ⟨store, [], true⟩
        else
          match condClose store c.alertid now note with
          | (store', some updated) =>
            let r := sweepLoop rules now failIds cs store'
            ⟨r.store, Effect.saved updated :: r.effects, r.failed⟩
          | (store', none) => sweepLoop rules now failIds cs store'

/-- `runAutoClose`: load the live candidates, then run the per-candidate
loop against the store.  `failIds = []` is the fault-free behaviour. -/
def runAutoClose (rules : Rules) (now : Int) (failIds : List String) (store : List Alert) :
    SweepResult :=
  sweepLoop rules now failIds (store.filter (fun a => decide (isLive a.status))) store

/-! ## Controller operations (`controllers/alertController.js`) -/

/-- HTTP response, reduced to status code and the message/error string. -/
structure HttpResp where
  code : Nat
  body : String
  deriving DecidableEq, Repr

/-- Result of one controller operation. -/
structure OpResult where
  resp : HttpResp
  store : List Alert
  effects : List Effect
  deriving DecidableEq, Repr

/-- The caller-supplied `timestamp` field, abstracted over JS date
parsing: absent (or falsy), present but unparseable (`new Date(x)` is an
Invalid Date), or parsing to an epoch-milliseconds instant. -/
inductive TsRaw where
  | absent
  | bad
  | good (t : Int)
  deriving DecidableEq, Repr

/-- `timestamp` passes the required-fields truthiness check. -/
def tsPresent : TsRaw → Bool
  | TsRaw.absent => false
  | TsRaw.bad => true
  | TsRaw.good _ => true

/-- A request body for `POST /api/alerts`. -/
structure ReqBody where
  alertid : Option String
  sourceType : Option String
  severity : Option String
  timestamp : TsRaw
  status : Option String
  metadata : List (String × JsVal)
  deriving DecidableEq, Repr

/-- Truthiness of an optional string body field (absent and `""` are
falsy in `!alertid || !sourceType || !severity`). -/
def bodyTruthy : Option String → Bool
  | none => false
  | some s => s ≠ ""

/-- The schema's `status` enum check: a valid enum string parses, anything
else is a mongoose `ValidationError`. -/
def statusOfString (s : String) : Option Status :=
  if s = "OPEN" then some Status.OPEN
  else if s = "ESCALATED" then some Status.ESCALATED
  else if s = "AUTO-CLOSED" then some Status.AUTO_CLOSED
  else if s = "RESOLVED" then some Status.RESOLVED
  else none

/-- `alert.save()` from the rule engines updates the single document with
the alert's id in place. -/
def replaceById (store : List Alert) (id : String) (a' : Alert) : List Alert :=
  store.map (fun b => if b.alertid = id then a' else b)

/-- The status the persisted document gets: the schema's default `OPEN`
when the caller sent no status, the caller's value when it is a valid
enum string, and `none` (a mongoose `ValidationError`) otherwise. -/
def parseStatus : Option String → Option Status
  | none => some Status.OPEN
  | some s => statusOfString s

/-- The in-memory document `new Alert({...})` built by `createAlert`. -/
def builtAlert (body : ReqBody) (t : Int) (st : Status) : Alert :=
  ⟨body.alertid.getD "", body.sourceType.getD "", body.severity.getD "", t, st, body.metadata⟩

/-- The success path of `createAlert`: `await alert.save()`, then
`registry.evaluate(alert)` against the store that already holds the new
alert (a failure there is caught and does not undo the ingest), then
`invalidate([CACHE_SUMMARY, CACHE_TRENDS])`, then the 201 response. -/
def persistAndEvaluate (rules : Rules) (store : List Alert) (body : ReqBody) (t : Int)
    (st : Status) : OpResult :=
  let created := builtAlert body t st
  let store1 := store ++ [created]
  let r := registryEvaluate rules store1 created
  ⟨⟨201, "alert ingested"⟩,
    (if r.2 then replaceById store1 created.alertid r.1 else store1),
    Effect.saved created ::
      ((if r.2 then [Effect.saved r.1] else []) ++
        [Effect.invalidated [CACHE_SUMMARY, CACHE_TRENDS]])⟩

/-- `createAlert`: required-fields check, timestamp parse check, the
schema checks at save (status enum, unique `alertid` index), then the
success path `persistAndEvaluate`. -/
def createAlert (rules : Rules) (store : List Alert) (body : ReqBody) : OpResult :=
  if ¬ (bodyTruthy body.alertid && bodyTruthy body.sourceType && bodyTruthy body.severity
        && tsPresent body.timestamp) then
    ⟨⟨400, "missing required fields"⟩, store, []⟩
  else
    match body.timestamp with
    | TsRaw.absent => ⟨⟨400, "missing required fields"⟩, store, []⟩
    | TsRaw.bad => ⟨⟨400, "invalid timestamp format"⟩, store, []⟩
    | TsRaw.good t =>
      match parseStatus body.status with
      | none => ⟨⟨400, "validation error: status is not a valid enum value"⟩, store, []⟩
      | some st =>
        if store.any (fun a => a.alertid = body.alertid.getD "") then
          ⟨⟨409, "alert with this alertid already exists"⟩, store, []⟩
        else persistAndEvaluate rules store body t st

/-- `findByIdAndUpdate`: update the document with the given id, with no
condition on its current status; `none` when the id matches nothing. -/
def updateById : List Alert → String → (Alert → Alert) → Option (List Alert × Alert)
  | [], _, _ => none
  | a :: rest, id, f =>
    if a.alertid = id then some (f a :: rest, f a)
    else
      match updateById rest id f with
      | none => none
      | some r => some (a :: r.1, r.2)

/-- The `$set` clause of `resolveAlert`: status `RESOLVED` plus the
`resolvedAt`/`resolvedBy` audit metadata — with no condition on the
current status. -/
def resolveMutation (userEmail : String) (now : Int) (a : Alert) : Alert :=
  { a with
    status := Status.RESOLVED,
    metadata := metaSet (metaSet a.metadata "resolvedAt" (JsVal.num now))
      "resolvedBy" (JsVal.str userEmail) }

/-- `resolveAlert`: an unconditional `findByIdAndUpdate` applying
`resolveMutation`, then the cache invalidation. -/
def resolveAlert (store : List Alert) (id : String) (userEmail : String) (now : Int) :
    OpResult :=
  match updateById store id (resolveMutation userEmail now) with
  | none => ⟨⟨404, "alert not found"⟩, store, []⟩
  | some r =>
    ⟨⟨200, "alert resolved"⟩, r.1,
      [Effect.saved r.2, Effect.invalidated [CACHE_SUMMARY, CACHE_TRENDS]]⟩

/-! ## Concrete inputs used by the witnesses and counterexamples -/

/-- A `rules.json` with the overspeed escalation policy
`windowMinutes = 60`, `escalateIfCount = 3`. -/
def osRules : Rules := [("overspeed", ⟨some 60, some 3, none, none⟩)]

/-- An open overspeed alert at time `t` (epoch milliseconds). -/
def osAlert (id : String) (t : Int) : Alert := ⟨id, "overspeed", "high", t, Status.OPEN, []⟩

/-- Three same-category alerts at `t-59m`, `t-30m`, `t` (with `t = 0`). -/
def storeInclusive : List Alert :=
  [osAlert "a" (-3540000), osAlert "b" (-1800000), osAlert "c" 0]

/-- Three same-category alerts at `t-61m`, `t-30m`, `t` (with `t = 0`). -/
def storeOutside : List Alert :=
  [osAlert "a" (-3660000), osAlert "b" (-1800000), osAlert "c" 0]

/-- A terminal (auto-closed) alert. -/
def closedAlert : Alert := ⟨"x", "overspeed", "high", 0, Status.AUTO_CLOSED, []⟩

/-- A resolved overspeed alert, with two open same-category alerts ten and
five minutes before it. -/
def resolvedAlert : Alert := ⟨"r", "overspeed", "high", 0, Status.RESOLVED, []⟩

/-- Store holding `resolvedAlert` plus two recent same-category alerts. -/
def resolvedStore : List Alert :=
  [osAlert "p" (-600000), osAlert "q" (-300000), resolvedAlert]

/-- A rule carrying both closure-style fields:
`autoCloseAfterMinutes = 1440` and `autoCloseIfMetadataKey = "documentValid"`. -/
def bothRule : Rule := ⟨none, none, some 1440, some "documentValid"⟩

/-- A ten-minute-old open compliance alert whose metadata carries
`documentValid = true`. -/
def youngValid : Alert :=
  ⟨"y", "compliance", "low", -600000, Status.OPEN, [("documentValid", JsVal.bool true)]⟩

/-- A rule with only the metadata-based closure field. -/
def metaRule : Rule := ⟨none, none, none, some "documentValid"⟩

/-- An age-based closure rule (`autoCloseAfterMinutes = 30`). -/
def ageRule : Rule := ⟨none, none, some 30, none⟩

/-- Two open overspeed alerts an hour old, both qualifying under `ageRule`. -/
def oldA1 : Alert := ⟨"o1", "overspeed", "high", -3600000, Status.OPEN, []⟩

/-- Second hour-old open overspeed alert. -/
def oldA2 : Alert := ⟨"o2", "overspeed", "high", -3600000, Status.OPEN, []⟩

/-- An ingestion body that supplies `status: "RESOLVED"`. -/
def bodyResolved : ReqBody :=
  ⟨some "n1", some "compliance", some "high", TsRaw.good 0, some "RESOLVED", []⟩

/-- An ingestion body that supplies no `status`. -/
def bodyNoStatus : ReqBody :=
  ⟨some "n2", some "compliance", some "high", TsRaw.good 0, none, []⟩

/-- An ingestion body whose `timestamp` does not parse. -/
def bodyBadTs : ReqBody :=
  ⟨some "n3", some "compliance", some "high", TsRaw.bad, none, []⟩

/-! ## Theorems -/

/-- C1: for an alert whose category has an escalation policy and whose
status permits escalation (it is not already `ESCALATED`), evaluation
counts the persisted alerts of the same category with `occurredAt` in the
closed interval `[alert.occurredAt − windowMinutes, alert.occurredAt]`
(both endpoints and the evaluated alert itself included, since the count
runs over the store that already holds it) and transitions the alert to
`ESCALATED` — performing a save — if and only if that count is
`≥ escalateIfCount`. -/
theorem escalation_window_iff (rules : Rules) (store : List Alert) (alert : Alert)
    (rule : Rule) (w cth : Int)
    (hsrc : alert.sourceType = "overspeed")
    (hstat : alert.status ≠ Status.ESCALATED)
    (hr : rulesFind rules "overspeed" = some rule)
    (hw : rule.window_mins = some w)
    (hc : rule.escalate_if_count = some cth) :
    ((engineEvaluate "overspeed" rules store alert).1.status = Status.ESCALATED ↔
      (windowCount store "overspeed" (alert.timestamp - w * 60 * 1000) alert.timestamp : Int)
        ≥ cth) ∧
    ((engineEvaluate "overspeed" rules store alert).2 = true ↔
      (windowCount store "overspeed" (alert.timestamp - w * 60 * 1000) alert.timestamp : Int)
        ≥ cth) := by
  unfold engineEvaluate
  rw [if_neg (by simp [hsrc]), if_neg hstat, hr]
  simp only [hw, hc]
  by_cases h : (windowCount store "overspeed" (alert.timestamp - w * 60 * 1000)
      alert.timestamp : Int) ≥ cth
  · rw [if_pos h]
    simp [h]
  · rw [if_neg h]
    simp [h, hstat]

/-- Witness for C1: with `windowMinutes = 60`, `escalateIfCount = 3`,
three same-category alerts at `t-59m`, `t-30m`, `t` escalate the alert at
`t`; the same three at `t-61m`, `t-30m`, `t` do not. -/
theorem escalation_window_iff_witness :
    (engineEvaluate "overspeed" osRules storeInclusive (osAlert "c" 0)).1.status
        = Status.ESCALATED ∧
    (engineEvaluate "overspeed" osRules storeOutside (osAlert "c" 0)).1.status
        ≠ Status.ESCALATED :=
  ⟨((escalation_window_iff osRules storeInclusive (osAlert "c" 0)
        ⟨some 60, some 3, none, none⟩ 60 3 (by decide) (by decide) (by decide) (by decide)
        (by decide)).1).mpr (by decide),
   fun h =>
    absurd (((escalation_window_iff osRules storeOutside (osAlert "c" 0)
        ⟨some 60, some 3, none, none⟩ 60 3 (by decide) (by decide) (by decide) (by decide)
        (by decide)).1).mp h) (by decide)⟩

/-- C10: an ingestion request whose required fields are present but whose
timestamp does not parse is rejected with a 400 "invalid timestamp
format" before anything is persisted: the store is unchanged, no effect
(no save, no rule-engine write, no invalidation) is performed. -/
theorem create_bad_timestamp_rejected (rules : Rules) (store : List Alert) (body : ReqBody)
    (h1 : bodyTruthy body.alertid = true)
    (h2 : bodyTruthy body.sourceType = true)
    (h3 : bodyTruthy body.severity = true)
    (ht : body.timestamp = TsRaw.bad) :
    createAlert rules store body = ⟨⟨400, "invalid timestamp format"⟩, store, []⟩ := by
  unfold createAlert
  rw [if_neg (by simp [h1, h2, h3, ht, tsPresent]), ht]

/-- Witness for C10 at a concrete request body. -/
theorem create_bad_timestamp_rejected_witness :
    createAlert osRules [] bodyBadTs = ⟨⟨400, "invalid timestamp format"⟩, [], []⟩ :=
  create_bad_timestamp_rejected osRules [] bodyBadTs (by decide) (by decide) (by decide)
    (by decide)

/-- A terminal-status alert is never live. -/
theorem not_live_of_terminal {a : Alert}
    (h : a.status = Status.AUTO_CLOSED ∨ a.status = Status.RESOLVED) : ¬ isLive a.status := by
  rcases h with h | h <;> simp [isLive, h]

/-- The guarded conditional write leaves every non-live document in
place: a member of the store that fails the status filter is still a
member afterwards, unchanged. -/
theorem condClose_mem_of_not_live :
    ∀ (l : List Alert) (id : String) (t : Int) (note : String) (a : Alert),
      a ∈ l → ¬ isLive a.status → a ∈ (condClose l id t note).1
  | [], _, _, _, _, ha, _ => absurd ha (List.not_mem_nil _)
  | b :: rest, id, t, note, a, ha, hterm => by
    unfold condClose
    by_cases hb : b.alertid = id ∧ isLive b.status
    · rw [if_pos hb]
      rcases List.mem_cons.mp ha with rfl | ha'
      · exact absurd hb.2 hterm
      · exact List.mem_cons_of_mem _ ha'
    · rw [if_neg hb]
      rcases List.mem_cons.mp ha with rfl | ha'
      · exact List.mem_cons_self _ _
      · exact List.mem_cons_of_mem _ (condClose_mem_of_not_live rest id t note a ha' hterm)

/-- The sweep's candidate loop preserves every non-live document of the
store, whatever the candidate list, the tick time and the injected
faults. -/
theorem sweepLoop_mem_of_not_live (rules : Rules) (now : Int) (failIds : List String) :
    ∀ (cands store : List Alert) (a : Alert), a ∈ store → ¬ isLive a.status →
      a ∈ (sweepLoop rules now failIds cands store).store
  | [], _, _, ha, _ => ha
  | c :: cs, store, a, ha, hterm => by
    unfold sweepLoop
    split
    · exact sweepLoop_mem_of_not_live rules now failIds cs store a ha hterm
    · split
      · exact sweepLoop_mem_of_not_live rules now failIds cs store a ha hterm
      · next note hnote =>
        split
        · exact ha
        · split
          · next store' updated heq =>
            have hmem := condClose_mem_of_not_live store c.alertid now note a ha hterm
            rw [heq] at hmem
            exact sweepLoop_mem_of_not_live rules now failIds cs store' a hmem hterm
          · next store' heq =>
            have hmem := condClose_mem_of_not_live store c.alertid now note a ha hterm
            rw [heq] at hmem
            exact sweepLoop_mem_of_not_live rules now failIds cs store' a hmem hterm

/-- C2 amended: the auto-close sweep never touches an alert in a
terminal state — a terminal alert is not among the loaded candidates and
survives the tick unchanged.  The original claim fails for the other two
actors: `resolveAlert` is an unguarded `findByIdAndUpdate` that sets
`RESOLVED` whatever the current status, and the overspeed/feedback
escalation guard skips only `ESCALATED`, not the terminal states. -/
theorem sweep_terminal_immutable (rules : Rules) (now : Int) (failIds : List String)
    (store : List Alert) (a : Alert) (ha : a ∈ store)
    (hterm : a.status = Status.AUTO_CLOSED ∨ a.status = Status.RESOLVED) :
    a ∈ (runAutoClose rules now failIds store).store ∧
    a ∉ store.filter (fun b => decide (isLive b.status)) := by
  refine ⟨sweepLoop_mem_of_not_live rules now failIds _ store a ha (not_live_of_terminal hterm),
    fun hmem => ?_⟩
  exact not_live_of_terminal hterm (by simpa using (List.mem_filter.mp hmem).2)

/-- Witness for C2 (amended) at a concrete store: the auto-closed alert
survives a sweep over a store that also holds a qualifying open alert. -/
theorem sweep_terminal_immutable_witness :
    closedAlert ∈ (runAutoClose [("overspeed", ageRule)] 0 [] [oldA1, closedAlert]).store ∧
    closedAlert ∉ [oldA1, closedAlert].filter (fun b => decide (isLive b.status)) :=
  sweep_terminal_immutable [("overspeed", ageRule)] 0 [] [oldA1, closedAlert] closedAlert
    (by decide) (Or.inl (by decide))

/-- C2 counterexample: manual resolve — one of the subsystem's three
operations — changes the status of an alert that is already terminal: on
an `AUTO-CLOSED` alert it matches (there is no status condition in
`findByIdAndUpdate`), reports success, and overwrites the status with
`RESOLVED`. -/
theorem resolve_overwrites_terminal_cex :
    closedAlert.status = Status.AUTO_CLOSED ∧
    (resolveAlert [closedAlert] "x" "ops@example.com" 5).resp.code = 200 ∧
    ((resolveAlert [closedAlert] "x" "ops@example.com" 5).store.head?).map Alert.status
      = some Status.RESOLVED := by decide

/-- When no document satisfies both halves of the filter (identity and
live status), the conditional update matches nothing: it reports
not-applied and the store is byte-for-byte unchanged. -/
theorem condClose_none :
    ∀ (l : List Alert) (id : String) (t : Int) (note : String),
      (∀ a ∈ l, a.alertid = id → ¬ isLive a.status) → condClose l id t note = (l, none)
  | [], _, _, _, _ => rfl
  | b :: rest, id, t, note, h => by
    unfold condClose
    rw [if_neg (fun hb => h b (List.mem_cons_self _ _) hb.1 hb.2)]
    rw [condClose_none rest id t note (fun a ha => h a (List.mem_cons_of_mem _ ha))]

/-- When the store holds a live document with the target id (ids being
pairwise distinct, as the unique index guarantees), the conditional
update applies exactly once: it returns the closed document, and the
resulting store has no live document with that id left. -/
theorem condClose_eligible :
    ∀ (l : List Alert) (id : String) (t : Int) (note : String),
      l.Pairwise (fun x y => x.alertid ≠ y.alertid) →
      ∀ a ∈ l, a.alertid = id → isLive a.status →
        (condClose l id t note).2 = some (applyClose a t note) ∧
        (∀ b ∈ (condClose l id t note).1, b.alertid = id → ¬ isLive b.status)
  | [], _, _, _, _, a, ha, _, _ => absurd ha (List.not_mem_nil _)
  | b :: rest, id, t, note, hdist, a, ha, haid, hlive => by
    have hd := List.pairwise_cons.mp hdist
    rcases List.mem_cons.mp ha with rfl | ha'
    · unfold condClose
      rw [if_pos ⟨haid, hlive⟩]
      refine ⟨rfl, fun b hb hbid => ?_⟩
      rcases List.mem_cons.mp hb with rfl | hb'
      · simp [applyClose, isLive]
      · exact absurd (haid.trans hbid.symm) (hd.1 b hb')
    · have hbid : b.alertid ≠ id := fun hb => (hd.1 a ha') (hb.trans haid.symm)
      unfold condClose
      rw [if_neg (fun hb => hbid hb.1)]
      have ih := condClose_eligible rest id t note hd.2 a ha' haid hlive
      refine ⟨ih.1, fun x hx hxid => ?_⟩
      rcases List.mem_cons.mp hx with rfl | hx'
      · exact absurd hxid hbid
      · exact ih.2 x hx' hxid

/-- C3: a guarded conditional write against an alert whose status is not
in {OPEN, ESCALATED} matches nothing, reports not-applied (`none`) and
leaves the store entirely unchanged; and of two attempts racing over the
same eligible alert (modelled as the two atomic conditional updates in
sequence) exactly one applies: the first returns the closed document —
carrying the closure note — and the second matches nothing and changes
nothing. -/
theorem guarded_write_race_safety (store : List Alert) (id : String) (t t2 : Int)
    (note note2 : String) :
    ((∀ a ∈ store, a.alertid = id → ¬ isLive a.status) →
      condClose store id t note = (store, none)) ∧
    (store.Pairwise (fun x y => x.alertid ≠ y.alertid) →
      ∀ a ∈ store, a.alertid = id → isLive a.status →
        (condClose store id t note).2 = some (applyClose a t note) ∧
        condClose (condClose store id t note).1 id t2 note2
          = ((condClose store id t note).1, none)) :=
  ⟨condClose_none store id t note,
   fun hdist a ha haid hlive =>
    have h := condClose_eligible store id t note hdist a ha haid hlive
    ⟨h.1, condClose_none _ id t2 note2 h.2⟩⟩

/-- Witness for C3: one open alert; the first close applies and carries
the note, the second attempt is a no-op; and the not-applied half at a
terminal alert. -/
theorem guarded_write_race_safety_witness :
    ((condClose [oldA1] "o1" 0 "n").2 = some (applyClose oldA1 0 "n") ∧
      condClose (condClose [oldA1] "o1" 0 "n").1 "o1" 7 "n2"
        = ((condClose [oldA1] "o1" 0 "n").1, none)) ∧
    condClose [closedAlert] "x" 0 "n" = ([closedAlert], none) :=
  ⟨(guarded_write_race_safety [oldA1] "o1" 0 7 "n" "n2").2 (by simp) oldA1 (by decide)
      (by decide) (by decide),
   (guarded_write_race_safety [closedAlert] "x" 0 7 "n" "n2").1 (by decide)⟩

/-- C4 counterexample: escalation evaluation is not a no-op on every
terminal or non-OPEN alert.  On a `RESOLVED` overspeed alert whose
category window holds enough same-category alerts, `registry.evaluate`
writes: it overwrites the terminal status with `ESCALATED` and saves
(the guard in `OverspeedRuleEngine.evaluate` checks only for
`ESCALATED`). -/
theorem evaluate_escalates_resolved_cex :
    resolvedAlert.status = Status.RESOLVED ∧
    registryEvaluate osRules resolvedStore resolvedAlert
      = ({ resolvedAlert with status := Status.ESCALATED }, true) := by decide

/-- C4 amended: escalation evaluation is an idempotent no-op (no write,
no error) when the alert's category has no policy (or is not a category
the registry knows), when an overspeed or negative-feedback alert is
already `ESCALATED` (so re-evaluation cannot double-fire), and when a
compliance alert is terminal.  The original claim's blanket "terminal or
non-OPEN" guard does not hold: the escalation engines skip only
`ESCALATED`, so a terminal `RESOLVED`/`AUTO-CLOSED` overspeed or
negative-feedback alert can still be written. -/
theorem evaluate_noop_guards (rules : Rules) (store : List Alert) (alert : Alert) :
    (rulesFind rules alert.sourceType = none →
      registryEvaluate rules store alert = (alert, false)) ∧
    (alert.status = Status.ESCALATED →
      (alert.sourceType = "overspeed" ∨ alert.sourceType = "feedback_negative") →
      registryEvaluate rules store alert = (alert, false)) ∧
    ((alert.status = Status.AUTO_CLOSED ∨ alert.status = Status.RESOLVED) →
      alert.sourceType = "compliance" →
      registryEvaluate rules store alert = (alert, false)) := by
  refine ⟨fun hr => ?_, fun hst hsrc => ?_, fun hst hsrc => ?_⟩
  · unfold registryEvaluate engineEvaluate complianceEvaluate
    by_cases h1 : alert.sourceType = "overspeed"
    · rw [h1] at hr
      simp [h1, hr]
    · by_cases h2 : alert.sourceType = "feedback_negative"
      · rw [h2] at hr
        simp [h1, h2, hr]
      · by_cases h3 : alert.sourceType = "compliance"
        · rw [h3] at hr
          simp [h1, h2, h3, hr]
        · simp [h1, h2, h3]
  · unfold registryEvaluate engineEvaluate
    rcases hsrc with h | h <;> simp [h, hst]
  · unfold registryEvaluate complianceEvaluate
    have h1 : alert.sourceType ≠ "overspeed" := by rw [hsrc]; decide
    have h2 : alert.sourceType ≠ "feedback_negative" := by rw [hsrc]; decide
    simp [h1, h2, hsrc, hst]

/-- Witness for C4 (amended): an already-ESCALATED overspeed alert is
untouched even with a full window, and an unknown category is a no-op. -/
theorem evaluate_noop_guards_witness :
    registryEvaluate osRules storeInclusive
        ⟨"c", "overspeed", "high", 0, Status.ESCALATED, []⟩
      = (⟨"c", "overspeed", "high", 0, Status.ESCALATED, []⟩, false) ∧
    registryEvaluate osRules storeInclusive ⟨"u", "unknown_type", "low", 0, Status.OPEN, []⟩
      = (⟨"u", "unknown_type", "low", 0, Status.OPEN, []⟩, false) :=
  ⟨(evaluate_noop_guards osRules storeInclusive
      ⟨"c", "overspeed", "high", 0, Status.ESCALATED, []⟩).2.1 (by decide) (Or.inl (by decide)),
   (evaluate_noop_guards osRules storeInclusive
      ⟨"u", "unknown_type", "low", 0, Status.OPEN, []⟩).1 (by decide)⟩

/-- C5 counterexample: for a policy defining both `autoCloseAfterMinutes`
and `autoCloseIfMetadataKey`, an alert younger than the age threshold
whose metadata carries the named key with value `true` does NOT qualify:
the age branch is chosen because the field is present, it fails, and the
`else if` never consults the metadata rule, so the sweep leaves the alert
open and performs no effect. -/
theorem metadata_rule_shadowed_cex :
    metaGet youngValid.metadata "documentValid" = some (JsVal.bool true) ∧
    (0 : Int) - youngValid.timestamp < 1440 * 60 * 1000 ∧
    closeNote bothRule 0 youngValid = none ∧
    (runAutoClose [("compliance", bothRule)] 0 [] [youngValid]).store = [youngValid] ∧
    (runAutoClose [("compliance", bothRule)] 0 [] [youngValid]).effects = [] := by decide

/-- C5 amended: per candidate the sweep's rule priority is decided by
which policy field is present, not by whether the age rule fired: when
`auto_close_mins` is present and non-zero the candidate's fate is the age
comparison alone (the metadata rule is never consulted, so a younger
alert does not qualify even with the flag set), and the metadata branch
applies only when `auto_close_mins` is absent or zero. -/
theorem closure_priority_field_presence (rule : Rule) (now : Int) (c : Alert) :
    (∀ m : Int, rule.auto_close_mins = some m → m ≠ 0 →
      closeNote rule now c =
        (if now - c.timestamp ≥ m * 60 * 1000 then some (ageNote m) else none)) ∧
    ((rule.auto_close_mins = none ∨ rule.auto_close_mins = some 0) →
      closeNote rule now c = metaCloseNote rule c) := by
  constructor
  · intro m hm hm0
    unfold closeNote
    rw [if_pos (by simp [intTruthy, hm, hm0]), hm]
  · intro h
    unfold closeNote
    rcases h with h | h <;> rw [if_neg (by simp [intTruthy, h])]

/-- Witness for C5 (amended) at the concrete both-fields policy: the
ten-minute-old flagged alert is decided by the failing age comparison. -/
theorem closure_priority_field_presence_witness :
    closeNote bothRule 0 youngValid
      = (if (0 : Int) - youngValid.timestamp ≥ 1440 * 60 * 1000 then some (ageNote 1440)
         else none) ∧
    closeNote bothRule 0 youngValid = none :=
  ⟨(closure_priority_field_presence bothRule 0 youngValid).1 1440 (by decide) (by decide),
   by decide⟩

/-- C6: in the sweeper's metadata-based closure (a policy whose
`auto_close_mins` is absent or zero and whose `auto_close_if` names a
non-empty key), a candidate qualifies — with the note naming the key —
precisely when its metadata holds that key with the strict boolean value
`true`; `false`, any non-boolean value and an absent key all yield no
closure. -/
theorem metadata_closure_iff_true (rule : Rule) (now : Int) (c : Alert) (k : String)
    (hmins : rule.auto_close_mins = none ∨ rule.auto_close_mins = some 0)
    (hk : rule.auto_close_if = some k) (hk0 : k ≠ "") :
    closeNote rule now c =
      (if metaGet c.metadata k = some (JsVal.bool true) then some (metaNote k) else none) := by
  unfold closeNote metaCloseNote
  rcases hmins with h | h <;>
    rw [if_neg (by simp [intTruthy, h]), if_pos (by simp [strTruthy, hk, hk0]), hk]

/-- Witness for C6: the flagged alert qualifies under the metadata-only
policy, and the same alert with the flag `false` does not. -/
theorem metadata_closure_iff_true_witness :
    closeNote metaRule 0 youngValid = some (metaNote "documentValid") ∧
    closeNote metaRule 0 { youngValid with metadata := [("documentValid", JsVal.bool false)] }
      = none :=
  ⟨by rw [metadata_closure_iff_true metaRule 0 youngValid "documentValid" (Or.inl (by decide))
      (by decide) (by decide)]; decide,
   by decide⟩

/-- Every effect of the sweep's candidate loop is a document save — there
is no cache-invalidation call anywhere in `runAutoClose`. -/
theorem sweepLoop_effects_saved (rules : Rules) (now : Int) (failIds : List String) :
    ∀ (cands store : List Alert), ∀ e ∈ (sweepLoop rules now failIds cands store).effects,
      ∃ a, e = Effect.saved a
  | [], _, _, he => absurd he (List.not_mem_nil _)
  | c :: cs, store, e, he => by
    unfold sweepLoop at he
    split at he
    · exact sweepLoop_effects_saved rules now failIds cs store e he
    · split at he
      · exact sweepLoop_effects_saved rules now failIds cs store e he
      · split at he
        · exact absurd he (List.not_mem_nil _)
        · split at he
          · next store' updated heq =>
            rcases List.mem_cons.mp he with rfl | he'
            · exact ⟨updated, rfl⟩
            · exact sweepLoop_effects_saved rules now failIds cs store' e he'
          · next store' heq =>
            exact sweepLoop_effects_saved rules now failIds cs store' e he

/-- A successful ingestion always ends by invalidating the summary and
trends cache keys. -/
theorem create_201_invalidates (rules : Rules) (store : List Alert) (body : ReqBody)
    (h201 : (createAlert rules store body).resp.code = 201) :
    Effect.invalidated [CACHE_SUMMARY, CACHE_TRENDS] ∈ (createAlert rules store body).effects := by
  unfold createAlert at h201 ⊢
  by_cases hreq : (bodyTruthy body.alertid && bodyTruthy body.sourceType
      && bodyTruthy body.severity && tsPresent body.timestamp) = true
  · simp only [hreq, not_true_eq_false, if_false] at h201 ⊢
    cases hts : body.timestamp with
    | absent => simp [hts] at h201
    | bad => simp [hts] at h201
    | good t =>
      simp only [hts] at h201 ⊢
      cases hps : parseStatus body.status with
      | none => simp [hps] at h201
      | some st =>
        simp only [hps] at h201 ⊢
        by_cases hdup : (store.any fun a => decide (a.alertid = body.alertid.getD "")) = true
        · simp [hdup] at h201
        · simp only [hdup, if_false] at h201 ⊢
          simp [persistAndEvaluate]
  · simp [hreq] at h201

/-- A successful manual resolve always invalidates the summary and trends
cache keys. -/
theorem resolve_200_invalidates (store : List Alert) (id userEmail : String) (now : Int)
    (h200 : (resolveAlert store id userEmail now).resp.code = 200) :
    Effect.invalidated [CACHE_SUMMARY, CACHE_TRENDS]
      ∈ (resolveAlert store id userEmail now).effects := by
  unfold resolveAlert at h200 ⊢
  cases hu : updateById store id (resolveMutation userEmail now) with
  | none => simp [hu] at h200
  | some r => simp [hu]

/-- C7 amended: ingestion and manual resolve invalidate the summary and
trends cache keys as part of the same operation whenever they succeed
(escalation runs inside the ingestion request, so its write is covered by
that same invalidation) — but the auto-close sweeper performs no cache
invalidation at all: every effect it emits is a document save. -/
theorem invalidation_sites (rules : Rules) (store : List Alert) (body : ReqBody)
    (id userEmail : String) (now : Int) (failIds : List String) :
    ((createAlert rules store body).resp.code = 201 →
      Effect.invalidated [CACHE_SUMMARY, CACHE_TRENDS]
        ∈ (createAlert rules store body).effects) ∧
    ((resolveAlert store id userEmail now).resp.code = 200 →
      Effect.invalidated [CACHE_SUMMARY, CACHE_TRENDS]
        ∈ (resolveAlert store id userEmail now).effects) ∧
    (∀ e ∈ (runAutoClose rules now failIds store).effects, ∀ ks, e ≠ Effect.invalidated ks) := by
  refine ⟨create_201_invalidates rules store body,
    resolve_200_invalidates store id userEmail now, fun e he ks => ?_⟩
  obtain ⟨a, rfl⟩ :=
    sweepLoop_effects_saved rules now failIds
      (store.filter (fun b => decide (isLive b.status))) store e he
  simp

/-- Witness for C7 (amended): a concrete successful ingestion and a
concrete successful resolve both carry the invalidation effect. -/
theorem invalidation_sites_witness :
    Effect.invalidated [CACHE_SUMMARY, CACHE_TRENDS]
      ∈ (createAlert osRules [] bodyNoStatus).effects ∧
    Effect.invalidated [CACHE_SUMMARY, CACHE_TRENDS]
      ∈ (resolveAlert [oldA1] "o1" "ops@example.com" 3).effects :=
  ⟨(invalidation_sites osRules [] bodyNoStatus "o1" "ops@example.com" 3 []).1 (by decide),
   (invalidation_sites osRules [oldA1] bodyNoStatus "o1" "ops@example.com" 3 []).2.1
     (by decide)⟩

/-- C7 counterexample: the sweeper performs a successful status mutation
(the metadata-based auto-close of a flagged alert) whose effect list
holds only the document save — the cache coherence hook is not invoked,
so the summary and trends keys are not invalidated by this operation. -/
theorem sweep_no_invalidation_cex :
    (runAutoClose [("compliance", metaRule)] 0 [] [youngValid]).store
      = [applyClose youngValid 0 (metaNote "documentValid")] ∧
    (runAutoClose [("compliance", metaRule)] 0 [] [youngValid]).effects
      = [Effect.saved (applyClose youngValid 0 (metaNote "documentValid"))] := by decide

/-- C8 counterexample: ingestion does not force status `OPEN`.  The
controller passes the caller-supplied `status` into the document, and the
schema's default applies only when the field is absent; a caller who
sends `status: "RESOLVED"` gets a 201 whose first persisted write — the
document saved before any escalation evaluation — already carries
`RESOLVED`, not `OPEN`. -/
theorem create_status_passthrough_cex :
    (createAlert [] [] bodyResolved).resp.code = 201 ∧
    (createAlert [] [] bodyResolved).effects.head?
      = some (Effect.saved ⟨"n1", "compliance", "high", 0, Status.RESOLVED, []⟩) ∧
    (createAlert [] [] bodyResolved).store
      = [⟨"n1", "compliance", "high", 0, Status.RESOLVED, []⟩] := by decide

/-- C8 amended: when the caller supplies no `status`, the document
persisted at creation time — the first save of a successful ingestion,
before any escalation evaluation runs — has status `OPEN` (the schema
default).  A caller-supplied valid enum status is persisted as given, and
an invalid one is rejected by the schema with a 400. -/
theorem create_default_open (rules : Rules) (store : List Alert) (body : ReqBody)
    (hst : body.status = none)
    (h201 : (createAlert rules store body).resp.code = 201) :
    ∀ a, (createAlert rules store body).effects.head? = some (Effect.saved a) →
      a.status = Status.OPEN := by
  unfold createAlert at h201 ⊢
  by_cases hreq : (bodyTruthy body.alertid && bodyTruthy body.sourceType
      && bodyTruthy body.severity && tsPresent body.timestamp) = true
  · simp only [hreq, not_true_eq_false, if_false] at h201 ⊢
    cases hts : body.timestamp with
    | absent => simp [hts] at h201
    | bad => simp [hts] at h201
    | good t =>
      simp only [hts] at h201 ⊢
      cases hps : parseStatus body.status with
      | none => simp [hps] at h201
      | some st =>
        have hopen : st = Status.OPEN := by
          rw [hst] at hps
          exact (Option.some_inj.mp hps.symm)
        simp only [hps] at h201 ⊢
        by_cases hdup : (store.any fun a => decide (a.alertid = body.alertid.getD "")) = true
        · simp [hdup] at h201
        · simp only [hdup, if_false] at h201 ⊢
          intro a ha
          simp [persistAndEvaluate] at ha
          rw [← ha, hopen]
          rfl
  · simp [hreq] at h201

/-- Witness for C8 (amended): the concrete no-status ingestion persists
`OPEN` first. -/
theorem create_default_open_witness :
    (createAlert osRules [] bodyNoStatus).effects.head?
      = some (Effect.saved ⟨"n2", "compliance", "high", 0, Status.OPEN, []⟩) ∧
    (⟨"n2", "compliance", "high", 0, Status.OPEN, []⟩ : Alert).status = Status.OPEN :=
  ⟨by decide,
   create_default_open osRules [] bodyNoStatus (by decide) (by decide)
     ⟨"n2", "compliance", "high", 0, Status.OPEN, []⟩ (by decide)⟩

/-- C9 counterexample: failures are not isolated per alert within a
tick.  Two hour-old open alerts both qualify under the 30-minute
age-based policy (the fault-free run closes both), yet when the
conditional update on the first throws, the tick aborts: the second,
perfectly processable candidate is left open. -/
theorem sweep_failure_aborts_batch_cex :
    (runAutoClose [("overspeed", ageRule)] 0 ["o1"] [oldA1, oldA2]).store = [oldA1, oldA2] ∧
    (runAutoClose [("overspeed", ageRule)] 0 ["o1"] [oldA1, oldA2]).failed = true ∧
    (runAutoClose [("overspeed", ageRule)] 0 [] [oldA1, oldA2]).store
      = [applyClose oldA1 0 (ageNote 30), applyClose oldA2 0 (ageNote 30)] := by decide

/-- C9 amended: an error raised while processing one candidate aborts
the remainder of that tick's batch — the loop has no per-candidate
handler, so the tick returns with the store as it stood at the failure
and the remaining candidates unexamined.  Isolation is per tick (the
worker catches the rejection, so the next scheduled run retries every
still-eligible alert), not per alert. -/
theorem sweep_abort_on_error (rules : Rules) (now : Int) (failIds : List String)
    (c : Alert) (cs store : List Alert) (rule : Rule) (note : String)
    (hr : rulesFind rules c.sourceType = some rule)
    (hn : closeNote rule now c = some note)
    (hf : c.alertid ∈ failIds) :
    sweepLoop rules now failIds (c :: cs) store = ⟨store, [], true⟩ := by
  unfold sweepLoop
  simp only [hr, hn]
  rw [if_pos hf]

/-- Witness for C9 (amended) at the concrete faulting store. -/
theorem sweep_abort_on_error_witness :
    sweepLoop [("overspeed", ageRule)] 0 ["o1"] [oldA1, oldA2] [oldA1, oldA2]
      = ⟨[oldA1, oldA2], [], true⟩ :=
  sweep_abort_on_error [("overspeed", ageRule)] 0 ["o1"] oldA1 [oldA2] [oldA1, oldA2]
    ageRule (ageNote 30) (by decide) (by decide) (by decide)

end AlertEngine
